import Mathlib

/-!
# Verification of Pycross (`src/cross.py`)

A shallow embedding, in Lean 4, of the crosshair-overlay utility in
`src/cross.py`, together with theorems settling the specification claims
about it.

The program is a PyQt5 application: a settings store (`save_settings` /
`load_settings` over `settings.json`), a transparent overlay window
(`CrosshairOverlay`), a settings dialog (`SettingsWindow`) and a tray
controller (`SystemTrayIcon`).  Each Python function is translated into a
pure Lean function; the mutable Qt objects become explicit state records,
and the event handlers become state-transition functions.
-/

namespace Pycross

/-- JSON values as handled by Python's `json` module.  Numbers are
restricted to integers, which is all this program ever writes and all its
claims concern; a non-integer number in a hand-crafted file would behave
like the other non-integer values modelled here (it is returned unvalidated
by the subscript operation and rejected by the `QColor` constructor). -/
inductive Json where
  | null : Json
  | bool (b : Bool) : Json
  | int (n : Int) : Json
  | str (s : String) : Json
  | arr (xs : List Json) : Json
  | obj (fields : List (String × Json)) : Json

/-- The Python exception classes that can arise in the settings store.
`load_settings` catches exactly `FileNotFoundError` and `KeyError`;
`JSONDecodeError` (a `ValueError`), `OSError` (e.g. `PermissionError`) and
`TypeError` are none of those two and propagate. -/
inductive PyErr where
  | fileNotFoundError : PyErr
  | keyError : PyErr
  | jsonDecodeError : PyErr
  | osError : PyErr
  | typeError : PyErr
deriving DecidableEq

/-- The state of the `settings.json` file as seen by `open`/`json.load`:
the file may be absent (`open` raises `FileNotFoundError`), unreadable
(`open` raises an `OSError` such as `PermissionError`), readable but not
valid JSON text (`json.load` raises `JSONDecodeError`), or the valid JSON
serialization of a value. -/
inductive FileState where
  | missing : FileState
  | unreadable : FileState
  | malformed : FileState
  | content (j : Json) : FileState

/-- Python subscripting `value[key]` with a string key: on a dict it looks
the key up and raises `KeyError` when absent; on every other JSON value
(list, string, number, bool, None) it raises `TypeError`.  Parsed JSON
objects have pairwise-distinct keys (`json.load` keeps the last duplicate),
so first-match lookup agrees with Python on every parsed object. -/
def Json.subscript : Json → String → Except PyErr Json
  | .obj fields, k =>
      match fields.lookup k with
      | some v => .ok v
      | none => .error .keyError
  | _, _ => .error .typeError

/-- `open("settings.json", "r")` followed by `json.load`, as a function of
the file state. -/
def jsonLoad : FileState → Except PyErr Json
  | .missing => .error .fileNotFoundError
  | .unreadable => .error .osError
  | .malformed => .error .jsonDecodeError
  | .content j => .ok j

/-- `QColor` as used by the program: three channels, plus the alpha channel
every `QColor` carries (the three-argument constructor leaves it at 255). -/
structure QColor where
  r : Int
  g : Int
  b : Int
  a : Int := 255
deriving DecidableEq

/-- `QColor.red()` -/
def QColor.red (c : QColor) : Int := c.r

/-- `QColor.green()` -/
def QColor.green (c : QColor) : Int := c.g

/-- `QColor.blue()` -/
def QColor.blue (c : QColor) : Int := c.b

/-- The call `QColor(settings["color"]["r"], ..., ...)` on the raw JSON
values: PyQt5 accepts the three-int overload and raises `TypeError` when
any argument is not an int. -/
def qcolorOfJson (jr jg jb : Json) : Except PyErr QColor :=
  match jr, jg, jb with
  | .int r, .int g, .int b => .ok { r := r, g := g, b := b }
  | _, _, _ => .error .typeError

/-- The dict literal built by `save_settings` (lines 22-31), serialized. -/
def serializeSettings (size thickness : Int) (color : QColor)
    (transparency : Int) : Json :=
  .obj [("size", .int size),
        ("thickness", .int thickness),
        ("color", .obj [("r", .int color.red),
                        ("g", .int color.green),
                        ("b", .int color.blue)]),
        ("transparency", .int transparency)]

/-- Where, if anywhere, an I/O failure strikes during `save_settings`.
`open("settings.json", "w")` truncates the file the moment it succeeds, so
a failure inside `json.dump` (e.g. disk full) happens after truncation. -/
inductive WriteFailure where
  | ok : WriteFailure
  | openFails : WriteFailure
  | writeFails : WriteFailure

/-- `save_settings(size, thickness, color, transparency)` (lines 20-33),
as a function of the previous file state and of the injected I/O outcome.
Returns the resulting file state and the uncaught exception, if any.
A strict prefix of the serialized object text is never valid JSON, so a
write that fails partway leaves the file `malformed`. -/
def save_settings (size thickness : Int) (color : QColor)
    (transparency : Int) (prev : FileState) (fail : WriteFailure) :
    FileState × Option PyErr :=
  match fail with
  | .ok => (.content (serializeSettings size thickness color transparency),
            none)
  | .openFails => (prev, some .osError)
  | .writeFails => (.malformed, some .osError)

/-- The body of the `try:` block of `load_settings` (lines 37-45): read and
parse the file, then build the result tuple.  Python evaluates the tuple
elements left to right, and the `QColor` arguments left to right, which is
the order of the binds below. -/
def load_settings_try (fs : FileState) :
    Except PyErr (Json × Json × QColor × Json) := do
  let settings ← jsonLoad fs
  let size ← settings.subscript "size"
  let thickness ← settings.subscript "thickness"
  let colorObj ← settings.subscript "color"
  let jr ← colorObj.subscript "r"
  let jg ← colorObj.subscript "g"
  let jb ← colorObj.subscript "b"
  let color ← qcolorOfJson jr jg jb
  let transparency ← settings.subscript "transparency"
  return (size, thickness, color, transparency)

/-- The default tuple `3, 2, QColor(255, 255, 255), 255` (line 48). -/
def defaultSettings : Json × Json × QColor × Json :=
  (.int 3, .int 2, { r := 255, g := 255, b := 255 }, .int 255)

/-- `load_settings()` (lines 35-48): the `try:` body with the handler
`except (FileNotFoundError, KeyError):` returning the defaults.  Any other
exception propagates to the caller. -/
def load_settings (fs : FileState) :
    Except PyErr (Json × Json × QColor × Json) :=
  match load_settings_try fs with
  | .ok v => .ok v
  | .error .fileNotFoundError => .ok defaultSettings
  | .error .keyError => .ok defaultSettings
  | .error e => .error e

/-- The mutable state of a `CrosshairOverlay` widget: the four appearance
attributes set in `__init__` (lines 53-56) and the Qt widget visibility
toggled by `show()`/`hide()`.  `showFullScreen()` in `__init__` and the
explicit `overlay.show()` at startup make a fresh overlay visible. -/
structure Overlay where
  size : Int
  thickness : Int
  color : QColor
  transparency : Int
  visible : Bool
deriving DecidableEq

/-- `CrosshairOverlay.set_crosshair_properties` (lines 98-104): overwrite
the four attributes and trigger a repaint (`self.update()`; the repaint
itself is `paintEvent` below). -/
def Overlay.set_crosshair_properties (o : Overlay) (size thickness : Int)
    (color : QColor) (transparency : Int) : Overlay :=
  { o with size := size, thickness := thickness, color := color,
           transparency := transparency }

/-- The four appearance attributes of an overlay, as a tuple (visibility
excluded). -/
def Overlay.appearance (o : Overlay) : Int × Int × QColor × Int :=
  (o.size, o.thickness, o.color, o.transparency)

/-- A `QPen`: the outline color and stroke width used by the painter. -/
structure QPen where
  color : QColor
  width : Int
deriving DecidableEq

/-- `QPen.setWidth` (line 79). -/
def QPen.setWidth (p : QPen) (w : Int) : QPen := { p with width := w }

/-- The bounding rectangle handed to `drawEllipse` (a `QRect`). -/
structure QRect where
  x : Int
  y : Int
  w : Int
  h : Int
deriving DecidableEq

/-- One `drawEllipse` call, recording the pen and brush in force when it
was issued together with the bounding rectangle passed to it. -/
structure EllipseCall where
  pen : QPen
  brush : QColor
  rect : QRect
deriving DecidableEq

/-- A `QPainter`: current pen, current brush color, and the ellipse calls
issued so far, in order. -/
structure QPainter where
  pen : QPen
  brush : QColor
  drawn : List EllipseCall
deriving DecidableEq

/-- `QPainter(self)`: a fresh painter with Qt's defaults (solid black pen
of width 1, black brush) and nothing drawn. -/
def QPainter.init : QPainter :=
  { pen := { color := { r := 0, g := 0, b := 0 }, width := 1 },
    brush := { r := 0, g := 0, b := 0 },
    drawn := [] }

/-- `QPainter.setPen` (line 80). -/
def QPainter.setPen (p : QPainter) (pen : QPen) : QPainter :=
  { p with pen := pen }

/-- `QPainter.setBrush` (line 84); the brush is determined by its color. -/
def QPainter.setBrush (p : QPainter) (c : QColor) : QPainter :=
  { p with brush := c }

/-- `QPainter.drawEllipse` (line 96): record the call with the pen and
brush currently in force. -/
def QPainter.drawEllipse (p : QPainter) (r : QRect) : QPainter :=
  { p with drawn := p.drawn ++ [{ pen := p.pen, brush := p.brush, rect := r }] }

/-- `CrosshairOverlay.paintEvent` (lines 74-96), as a function of the
window dimensions returned by `self.width()` / `self.height()` (natural
numbers; Python's `//` on them is truncating division, `Nat.div` here).
The statements below mirror the source line by line. -/
def Overlay.paintEvent (o : Overlay) (w h : Nat) : QPainter :=
  let painter := QPainter.init
  let pen : QPen := { color := { r := 0, g := 0, b := 0, a := o.transparency },
                      width := 1 }
  let pen := pen.setWidth o.thickness
  let painter := painter.setPen pen
  let color_with_transparency : QColor :=
    { r := o.color.red, g := o.color.green, b := o.color.blue,
      a := o.transparency }
  let painter := painter.setBrush color_with_transparency
  let center_x : Int := (w / 2 : Nat)
  let center_y : Int := (h / 2 : Nat)
  let dot_radius : Int := o.size
  painter.drawEllipse
    { x := center_x - dot_radius, y := center_y - dot_radius,
      w := dot_radius * 2, h := dot_radius * 2 }

/-- The startup lines 256-262: `load_settings()` destructured into four
variables, then `CrosshairOverlay(size, thickness, color, transparency)`
and `overlay.show()`.  The scalar values coming out of `load_settings` are
stored untouched; a non-integer scalar (only producible by a hand-crafted
file) would surface later inside Qt arithmetic, which this model folds into
a `TypeError` at construction, since no claim depends on such values. -/
def startupOverlay (fs : FileState) : Except PyErr Overlay := do
  let (size, thickness, color, transparency) ← load_settings fs
  match size, thickness, transparency with
  | .int s, .int t, .int tr =>
      return { size := s, thickness := t, color := color,
               transparency := tr, visible := true }
  | _, _, _ => .error .typeError

/-- The process exit code of `__main__` (lines 247-267) as a function of
the two startup conditions.  When the system tray is unavailable the code
runs `sys.exit()` with no argument, i.e. `SystemExit(None)`, and the
process exit status is 0; when the icon file is absent the tray constructor
runs `sys.exit(1)`; otherwise the app reaches the event loop and the only
normal termination is `exit_app` (`app.quit()`), after which `app.exec_()`
returns 0 and `sys.exit(0)` follows. -/
def mainExitCode (trayAvailable iconExists : Bool) : Nat :=
  if !trayAvailable then 0
  else if !iconExists then 1
  else 0

/-- A `QSlider`: minimum, maximum and current value.  `setValue` bounds the
requested value to `[minimum, maximum]` (Qt clamps out-of-range values). -/
structure Slider where
  minV : Int
  maxV : Int
  value : Int
deriving DecidableEq

/-- `QSlider.setValue`: Qt stores the requested value bounded to the
slider's range. -/
def Slider.setValue (s : Slider) (v : Int) : Slider :=
  { s with value := min s.maxV (max s.minV v) }

/-- `setMinimum(lo); setMaximum(hi); setValue(v)` on a fresh horizontal
slider, as in `SettingsWindow.__init__`; the net result is a slider with
the given bounds whose value is `v` bounded to them.  (The `valueChanged`
signal is connected only after this initial `setValue`, so construction
fires no update.) -/
def mkSlider (lo hi v : Int) : Slider :=
  Slider.setValue { minV := lo, maxV := hi, value := lo } v

/-- The state of a `SettingsWindow` object (lines 106-156): the three
sliders, the held color (`self.color`, seeded from `self.overlay.color`),
and whether the dialog is currently hidden (`self.hide()` /
`self.show()`). -/
structure SettingsWindow where
  size_slider : Slider
  thickness_slider : Slider
  transparency_slider : Slider
  color : QColor
  hidden : Bool
deriving DecidableEq

/-- `SettingsWindow.__init__(overlay)` (lines 107-156): sliders with ranges
1-20, 1-10 and 0-255 seeded from the overlay's current attributes, and the
held color seeded from the overlay's color.  The constructor reads only the
overlay object, never the settings file. -/
def mkSettingsWindow (overlay : Overlay) : SettingsWindow :=
  { size_slider := mkSlider 1 20 overlay.size,
    thickness_slider := mkSlider 1 10 overlay.thickness,
    transparency_slider := mkSlider 0 255 overlay.transparency,
    color := overlay.color,
    hidden := false }

/-- The menu text constants of the toggle action. -/
def hideCrosshairText : String := "Hide Crosshair"

/-- The toggle action's label while the overlay is hidden. -/
def showCrosshairText : String := "Show Crosshair"

/-- The mutable state of the `SystemTrayIcon` controller: the visibility
flag (line 186) and the toggle action's current label (line 192). -/
structure TrayState where
  is_overlay_visible : Bool
  toggle_text : String
deriving DecidableEq

/-- The reasons of the `activated` signal; `QSystemTrayIcon.Trigger` is a
left click on the icon. -/
inductive ActivationReason where
  | trigger : ActivationReason
  | context : ActivationReason
  | doubleClick : ActivationReason
  | middleClick : ActivationReason
deriving DecidableEq

/-- The whole application state reachable from the event loop: the overlay,
the tray controller, the most recently constructed `SettingsWindow` (none
before the first "Settings" click), how many `SettingsWindow` objects have
been constructed so far (to observe object identity across re-opens), and
the settings file. -/
structure AppState where
  overlay : Overlay
  tray : TrayState
  window : Option SettingsWindow
  dialogCount : Nat
  file : FileState

/-- `SettingsWindow.update_settings` (lines 158-165): read the three slider
values and the held color, and push them to the overlay through
`set_crosshair_properties`.  The handler exists only on a constructed
dialog. -/
def AppState.update_settings (s : AppState) : AppState :=
  match s.window with
  | none => s
  | some w =>
      { s with overlay :=
          (s.overlay.set_crosshair_properties w.size_slider.value
            w.thickness_slider.value w.color w.transparency_slider.value) }

/-- A user drag of the size slider to `v`: the slider stores the value
(bounded to its range) and its `valueChanged` signal runs
`update_settings`. -/
def AppState.moveSizeSlider (s : AppState) (v : Int) : AppState :=
  match s.window with
  | none => s
  | some w =>
      ({ s with window :=
          (some { w with size_slider :=
            (w.size_slider.setValue v) }) }).update_settings

/-- A user drag of the thickness slider to `v`. -/
def AppState.moveThicknessSlider (s : AppState) (v : Int) : AppState :=
  match s.window with
  | none => s
  | some w =>
      ({ s with window :=
          (some { w with thickness_slider :=
            (w.thickness_slider.setValue v) }) }).update_settings

/-- A user drag of the transparency slider to `v`. -/
def AppState.moveTransparencySlider (s : AppState) (v : Int) : AppState :=
  match s.window with
  | none => s
  | some w =>
      ({ s with window :=
          (some { w with transparency_slider :=
            (w.transparency_slider.setValue v) }) }).update_settings

/-- `SettingsWindow.open_color_dialog` (lines 167-172):
`QColorDialog.getColor` blocks and returns a color, valid exactly when the
user confirmed rather than cancelled (`picked`, `pickedIsValid`); a valid
pick becomes the held color and triggers the same live update as a slider
move, a cancel changes nothing. -/
def AppState.open_color_dialog (s : AppState) (picked : QColor)
    (pickedIsValid : Bool) : AppState :=
  match s.window with
  | none => s
  | some w =>
      if pickedIsValid then
        ({ s with window := some { w with color := picked } }).update_settings
      else s

/-- `SettingsWindow.apply_settings` (lines 174-179): run `update_settings`,
then `save_settings(self.overlay.size, self.overlay.thickness,
self.overlay.color, self.overlay.transparency)` on the overlay's
now-current attributes, then `self.hide()`.  The write here takes the
successful I/O path; `save_settings` itself models failures. -/
def AppState.apply_settings (s : AppState) : AppState :=
  match s.window with
  | none => s
  | some w =>
      let s1 := s.update_settings
      { s1 with
        file := (save_settings s1.overlay.size s1.overlay.thickness
                  s1.overlay.color s1.overlay.transparency s1.file
                  .ok).1,
        window := some { w with hidden := true } }

/-- `SystemTrayIcon.open_settings` (lines 233-236):
`self.settings_window = SettingsWindow(self.overlay)` constructs a fresh
dialog object bound to the overlay and shows it; the previous dialog
object, if any, is replaced.  `dialogCount` counts the constructions. -/
def AppState.open_settings (s : AppState) : AppState :=
  { s with window := some (mkSettingsWindow s.overlay),
           dialogCount := s.dialogCount + 1 }

/-- `SystemTrayIcon.toggle_overlay` (lines 223-231): when the flag says
visible, hide the overlay and relabel the action "Show Crosshair",
otherwise show it and relabel "Hide Crosshair"; then negate the flag. -/
def AppState.toggle_overlay (s : AppState) : AppState :=
  let s1 :=
    if s.tray.is_overlay_visible then
      { s with overlay := { s.overlay with visible := false },
               tray := { s.tray with toggle_text := showCrosshairText } }
    else
      { s with overlay := { s.overlay with visible := true },
               tray := { s.tray with toggle_text := hideCrosshairText } }
  { s1 with tray := { s1.tray with
      is_overlay_visible := !s.tray.is_overlay_visible } }

/-- `SystemTrayIcon.on_tray_icon_activated` (lines 238-240): a left click
(`Trigger`) toggles the overlay, every other reason does nothing. -/
def AppState.on_tray_icon_activated (s : AppState)
    (reason : ActivationReason) : AppState :=
  match reason with
  | .trigger => s.toggle_overlay
  | _ => s

/-- The application state right after lines 256-265: overlay constructed
from the loaded settings and shown, tray flag true with the action labelled
"Hide Crosshair", no `SettingsWindow` constructed yet, the settings file
unchanged. -/
def initAppState (o : Overlay) (fs : FileState) : AppState :=
  { overlay := { o with visible := true },
    tray := { is_overlay_visible := true, toggle_text := hideCrosshairText },
    window := none,
    dialogCount := 0,
    file := fs }

/-- The application states reachable from startup through the event
handlers (every handler, with arbitrary user inputs). -/
inductive Reachable : AppState → Prop where
  | boot : ∀ fs o, startupOverlay fs = .ok o → Reachable (initAppState o fs)
  | toggle : ∀ s, Reachable s → Reachable s.toggle_overlay
  | activated : ∀ s r, Reachable s → Reachable (s.on_tray_icon_activated r)
  | openSettings : ∀ s, Reachable s → Reachable s.open_settings
  | moveSize : ∀ s v, Reachable s → Reachable (s.moveSizeSlider v)
  | moveThickness : ∀ s v, Reachable s → Reachable (s.moveThicknessSlider v)
  | moveTransparency : ∀ s v, Reachable s →
      Reachable (s.moveTransparencySlider v)
  | chooseColor : ∀ s c ok, Reachable s →
      Reachable (s.open_color_dialog c ok)
  | applyClick : ∀ s, Reachable s → Reachable s.apply_settings

/-- Each channel of the color lies in `[0, 255]` (alpha included), as every
`QColor` produced by the color dialog or the three-int constructor on valid
input does. -/
def colorInRange (c : QColor) : Prop :=
  0 ≤ c.r ∧ c.r ≤ 255 ∧ 0 ≤ c.g ∧ c.g ≤ 255 ∧ 0 ≤ c.b ∧ c.b ≤ 255 ∧
  0 ≤ c.a ∧ c.a ≤ 255

instance (c : QColor) : Decidable (colorInRange c) := by
  unfold colorInRange; infer_instance

/-- The stated ranges of the four appearance fields: size in `[1, 20]`,
thickness in `[1, 10]`, each color channel in `[0, 255]`, transparency in
`[0, 255]`. -/
def appearanceInRange (o : Overlay) : Prop :=
  1 ≤ o.size ∧ o.size ≤ 20 ∧ 1 ≤ o.thickness ∧ o.thickness ≤ 10 ∧
  colorInRange o.color ∧ 0 ≤ o.transparency ∧ o.transparency ≤ 255

instance (o : Overlay) : Decidable (appearanceInRange o) := by
  unfold appearanceInRange; infer_instance

/-- Well-formedness of a constructed `SettingsWindow`: the three sliders
carry the ranges fixed in `__init__` with values inside them, and the held
color is in range.  This holds of every dialog the program constructs and
is preserved by every dialog interaction. -/
def windowWF (w : SettingsWindow) : Prop :=
  w.size_slider.minV = 1 ∧ w.size_slider.maxV = 20 ∧
  1 ≤ w.size_slider.value ∧ w.size_slider.value ≤ 20 ∧
  w.thickness_slider.minV = 1 ∧ w.thickness_slider.maxV = 10 ∧
  1 ≤ w.thickness_slider.value ∧ w.thickness_slider.value ≤ 10 ∧
  w.transparency_slider.minV = 0 ∧ w.transparency_slider.maxV = 255 ∧
  0 ≤ w.transparency_slider.value ∧ w.transparency_slider.value ≤ 255 ∧
  colorInRange w.color

instance (w : SettingsWindow) : Decidable (windowWF w) := by
  unfold windowWF; infer_instance

/-- The tray controller's bookkeeping is consistent: its visibility flag
agrees with the overlay's actual visibility, and the toggle action's label
matches the flag.  This holds at startup and is maintained by every event
handler. -/
def TraySync (s : AppState) : Prop :=
  s.tray.is_overlay_visible = s.overlay.visible ∧
  s.tray.toggle_text =
    (if s.tray.is_overlay_visible then hideCrosshairText
     else showCrosshairText)

instance (s : AppState) : Decidable (TraySync s) := by
  unfold TraySync; infer_instance

/-! ### Helper lemmas -/

lemma Slider.setValue_bounds (s : Slider) (v : Int) (h : s.minV ≤ s.maxV) :
    s.minV ≤ (s.setValue v).value ∧ (s.setValue v).value ≤ s.maxV := by
  simp only [Slider.setValue]
  omega

lemma Slider.setValue_of_mem (s : Slider) (v : Int) (h1 : s.minV ≤ v)
    (h2 : v ≤ s.maxV) : (s.setValue v).value = v := by
  simp only [Slider.setValue]
  omega

lemma Slider.setValue_keeps_range (s : Slider) (v : Int) :
    (s.setValue v).minV = s.minV ∧ (s.setValue v).maxV = s.maxV :=
  ⟨rfl, rfl⟩

lemma update_settings_tray (s : AppState) :
    s.update_settings.tray = s.tray := by
  unfold AppState.update_settings
  cases s.window <;> rfl

lemma update_settings_visible (s : AppState) :
    s.update_settings.overlay.visible = s.overlay.visible := by
  unfold AppState.update_settings
  cases s.window <;> rfl

lemma moveSizeSlider_tray (s : AppState) (v : Int) :
    (s.moveSizeSlider v).tray = s.tray := by
  unfold AppState.moveSizeSlider
  cases s.window
  · rfl
  · rw [update_settings_tray]

lemma moveSizeSlider_visible (s : AppState) (v : Int) :
    (s.moveSizeSlider v).overlay.visible = s.overlay.visible := by
  unfold AppState.moveSizeSlider
  cases s.window
  · rfl
  · rw [update_settings_visible]

lemma moveThicknessSlider_tray (s : AppState) (v : Int) :
    (s.moveThicknessSlider v).tray = s.tray := by
  unfold AppState.moveThicknessSlider
  cases s.window
  · rfl
  · rw [update_settings_tray]

lemma moveThicknessSlider_visible (s : AppState) (v : Int) :
    (s.moveThicknessSlider v).overlay.visible = s.overlay.visible := by
  unfold AppState.moveThicknessSlider
  cases s.window
  · rfl
  · rw [update_settings_visible]

lemma moveTransparencySlider_tray (s : AppState) (v : Int) :
    (s.moveTransparencySlider v).tray = s.tray := by
  unfold AppState.moveTransparencySlider
  cases s.window
  · rfl
  · rw [update_settings_tray]

lemma moveTransparencySlider_visible (s : AppState) (v : Int) :
    (s.moveTransparencySlider v).overlay.visible = s.overlay.visible := by
  unfold AppState.moveTransparencySlider
  cases s.window
  · rfl
  · rw [update_settings_visible]

lemma open_color_dialog_tray (s : AppState) (c : QColor) (ok : Bool) :
    (s.open_color_dialog c ok).tray = s.tray := by
  unfold AppState.open_color_dialog
  cases s.window
  · rfl
  · dsimp only
    split
    · rw [update_settings_tray]
    · rfl

lemma open_color_dialog_visible (s : AppState) (c : QColor) (ok : Bool) :
    (s.open_color_dialog c ok).overlay.visible = s.overlay.visible := by
  unfold AppState.open_color_dialog
  cases s.window
  · rfl
  · dsimp only
    split
    · rw [update_settings_visible]
    · rfl

lemma apply_settings_tray (s : AppState) :
    s.apply_settings.tray = s.tray := by
  unfold AppState.apply_settings
  cases s.window
  · rfl
  · dsimp only
    rw [update_settings_tray]

lemma apply_settings_visible (s : AppState) :
    s.apply_settings.overlay.visible = s.overlay.visible := by
  unfold AppState.apply_settings
  cases s.window
  · rfl
  · dsimp only
    rw [update_settings_visible]

lemma open_settings_tray (s : AppState) :
    s.open_settings.tray = s.tray := rfl

lemma open_settings_visible (s : AppState) :
    s.open_settings.overlay.visible = s.overlay.visible := rfl

lemma traySync_congr {s t : AppState} (h : TraySync s)
    (ht : t.tray = s.tray) (hv : t.overlay.visible = s.overlay.visible) :
    TraySync t := by
  unfold TraySync at h ⊢
  rw [ht, hv]
  exact h

lemma toggle_traySync (s : AppState) : TraySync s.toggle_overlay := by
  unfold TraySync
  unfold AppState.toggle_overlay
  cases hv : s.tray.is_overlay_visible <;> simp [hv]

/-- Every reachable application state has a consistent tray controller. -/
lemma reachable_traySync {s : AppState} (h : Reachable s) : TraySync s := by
  induction h with
  | boot fs o _ => exact ⟨rfl, rfl⟩
  | toggle s _ _ => exact toggle_traySync s
  | activated s r _ ih =>
      cases r with
      | trigger => exact toggle_traySync s
      | context => exact ih
      | doubleClick => exact ih
      | middleClick => exact ih
  | openSettings s _ ih =>
      exact traySync_congr ih (open_settings_tray s) (open_settings_visible s)
  | moveSize s v _ ih =>
      exact traySync_congr ih (moveSizeSlider_tray s v)
        (moveSizeSlider_visible s v)
  | moveThickness s v _ ih =>
      exact traySync_congr ih (moveThicknessSlider_tray s v)
        (moveThicknessSlider_visible s v)
  | moveTransparency s v _ ih =>
      exact traySync_congr ih (moveTransparencySlider_tray s v)
        (moveTransparencySlider_visible s v)
  | chooseColor s c ok _ ih =>
      exact traySync_congr ih (open_color_dialog_tray s c ok)
        (open_color_dialog_visible s c ok)
  | applyClick s _ ih =>
      exact traySync_congr ih (apply_settings_tray s) (apply_settings_visible s)

/-! ### Claims -/

/-- Claim C1, counterexample: `load_settings` is not total.  On a file whose text
is not valid JSON, `json.load` raises `JSONDecodeError`, which is neither
`FileNotFoundError` nor `KeyError` and therefore propagates to the caller
instead of producing the default tuple. -/
theorem C1_counterexample :
    load_settings .malformed = .error .jsonDecodeError ∧
    load_settings .malformed ≠ .ok defaultSettings :=
  ⟨rfl, fun h => Except.noConfusion h⟩

/-- Claim C1, amended: `load_settings` returns the default tuple
`(3, 2, RGB(255,255,255), 255)` exactly for the failures its handler
catches — a missing file (`FileNotFoundError`) and a missing required key
(`KeyError`), including a file whose `color` object lacks the `g` key,
which yields the full default tuple and not a partial recovery — and
returns the parsed tuple on success; but it is not total: an unreadable
file propagates `OSError` and malformed JSON propagates `JSONDecodeError`
to the caller. -/
theorem C1_load_settings_amended :
    (∀ fs : FileState,
      load_settings_try fs = .error .fileNotFoundError ∨
        load_settings_try fs = .error .keyError →
      load_settings fs = .ok defaultSettings) ∧
    (∀ (fs : FileState) (v : Json × Json × QColor × Json),
      load_settings_try fs = .ok v → load_settings fs = .ok v) ∧
    load_settings .missing = .ok defaultSettings ∧
    load_settings (.content (.obj [("size", .int 5), ("thickness", .int 2),
      ("color", .obj [("r", .int 10), ("b", .int 20)]),
      ("transparency", .int 9)])) = .ok defaultSettings ∧
    load_settings .unreadable = .error .osError ∧
    load_settings .malformed = .error .jsonDecodeError := by
  refine ⟨?_, ?_, rfl, rfl, rfl, rfl⟩
  · intro fs h
    unfold load_settings
    rcases h with h | h <;> rw [h]
  · intro fs v h
    unfold load_settings
    rw [h]

/-- Witness for the amended C1: the default-on-missing-file conclusion at
the concrete file state `missing`. -/
theorem C1_load_settings_amended_witness :
    load_settings .missing = .ok defaultSettings :=
  C1_load_settings_amended.1 .missing (Or.inl rfl)

/-- Claim C2: for every radius in `[1, 20]`, thickness in `[1, 10]`, alpha in
`[0, 255]` and RGB triple with channels in `[0, 255]`, `save_settings`
followed by `load_settings` returns exactly the same four values, whatever
the previous file content was. -/
theorem C2_save_load_roundtrip (radius thickness alpha r g b : Int)
    (prev : FileState)
    (_hrad : 1 ≤ radius ∧ radius ≤ 20)
    (_hth : 1 ≤ thickness ∧ thickness ≤ 10)
    (_hal : 0 ≤ alpha ∧ alpha ≤ 255)
    (_hr : 0 ≤ r ∧ r ≤ 255) (_hg : 0 ≤ g ∧ g ≤ 255)
    (_hb : 0 ≤ b ∧ b ≤ 255) :
    load_settings
      ((save_settings radius thickness { r := r, g := g, b := b } alpha
          prev .ok).1)
      = .ok (.int radius, .int thickness, { r := r, g := g, b := b },
             .int alpha) := rfl

/-- Witness for C2 at a concrete point of the valid domain. -/
theorem C2_save_load_roundtrip_witness :
    load_settings
      ((save_settings 5 4 { r := 10, g := 20, b := 30 } 100 .missing .ok).1)
      = .ok (.int 5, .int 4, { r := 10, g := 20, b := 30 }, .int 100) :=
  C2_save_load_roundtrip 5 4 100 10 20 30 .missing (by decide) (by decide)
    (by decide) (by decide) (by decide) (by decide)

/-- Claim C3, counterexample: when no system tray capability is available the
program runs `sys.exit()` with no argument, i.e. `SystemExit(None)`, and
the process exit status is 0 — not non-zero as claimed. -/
theorem C3_counterexample : mainExitCode false true = 0 := rfl

/-- Claim C3, amended: the exit code is 0 on graceful termination via the
tray-menu Exit action and also 0 on the no-tray startup abort
(`sys.exit()` with no argument); it is non-zero (namely 1) exactly when
the tray is available but the icon resource is missing. -/
theorem C3_exit_codes_amended :
    mainExitCode true true = 0 ∧ mainExitCode false true = 0 ∧
    mainExitCode false false = 0 ∧ mainExitCode true false = 1 :=
  ⟨rfl, rfl, rfl, rfl⟩

/-- Claim C5, counterexample: `save_settings` opens `settings.json` in mode
`"w"`, which truncates the old content the moment `open` succeeds; an I/O
failure inside `json.dump` (e.g. disk full) therefore leaves a truncated
file that is neither the previous content nor the full new record. -/
theorem C5_counterexample :
    (save_settings 5 4 { r := 10, g := 20, b := 30 } 100
        (.content (serializeSettings 3 2 { r := 255, g := 255, b := 255 }
          255))
        .writeFails).1 = .malformed ∧
    FileState.malformed ≠
      FileState.content (serializeSettings 3 2
        { r := 255, g := 255, b := 255 } 255) ∧
    FileState.malformed ≠
      FileState.content (serializeSettings 5 4
        { r := 10, g := 20, b := 30 } 100) :=
  ⟨rfl, fun h => FileState.noConfusion h, fun h => FileState.noConfusion h⟩

/-- Claim C5, amended: when no I/O failure strikes, `save_settings` overwrites
the file with the full four-field record and raises nothing; when `open`
itself fails the previous content is untouched (and the `OSError` is
unhandled); but a failure during the write happens after `"w"`-mode
truncation and leaves a partially written file — the operation is not
atomic. -/
theorem C5_save_settings_amended (size thickness : Int) (color : QColor)
    (transparency : Int) (prev : FileState) :
    (save_settings size thickness color transparency prev .ok).1 =
      .content (serializeSettings size thickness color transparency) ∧
    (save_settings size thickness color transparency prev .ok).2 = none ∧
    (save_settings size thickness color transparency prev .openFails).1 =
      prev ∧
    (save_settings size thickness color transparency prev .writeFails).1 =
      .malformed :=
  ⟨rfl, rfl, rfl, rfl⟩

/-- Claim C6: for every window width, height and appearance, `paintEvent` issues
exactly one ellipse call, whose pen is pure black at the appearance's alpha
with width equal to the thickness, whose brush is the fill color at the
same alpha, and whose bounding rectangle is
`(cx - size, cy - size, 2*size, 2*size)` for the center
`(cx, cy) = (w div 2, h div 2)` computed by integer division. -/
theorem C6_paintEvent (w h : Nat) (o : Overlay) :
    (o.paintEvent w h).drawn =
      [{ pen := { color := { r := 0, g := 0, b := 0, a := o.transparency },
                  width := o.thickness },
         brush := { r := o.color.r, g := o.color.g, b := o.color.b,
                    a := o.transparency },
         rect := { x := ((w / 2 : Nat) : Int) - o.size,
                   y := ((h / 2 : Nat) : Int) - o.size,
                   w := 2 * o.size, h := 2 * o.size } }] := by
  simp [Overlay.paintEvent, QPainter.drawEllipse, QPainter.init,
        QPainter.setPen, QPainter.setBrush, QPen.setWidth, QColor.red,
        QColor.green, QColor.blue, mul_comm]

/-- The overlay created at startup when the settings file is absent: the
default appearance, visible. -/
def defaultOverlay : Overlay :=
  { size := 3, thickness := 2, color := { r := 255, g := 255, b := 255 },
    transparency := 255, visible := true }

/-- A concrete application state for witnesses: the default startup state
with the settings dialog opened once. -/
def demoState : AppState := (initAppState defaultOverlay .missing).open_settings

/-! ### Equation lemmas for the event handlers on a state with a dialog -/

lemma update_settings_eq {s : AppState} {w : SettingsWindow}
    (hw : s.window = some w) :
    s.update_settings =
      { s with overlay :=
          (s.overlay.set_crosshair_properties w.size_slider.value
            w.thickness_slider.value w.color w.transparency_slider.value) } := by
  unfold AppState.update_settings
  rw [hw]

lemma moveSizeSlider_eq {s : AppState} {w : SettingsWindow}
    (hw : s.window = some w) (v : Int) :
    s.moveSizeSlider v =
      { s with
        overlay :=
          (s.overlay.set_crosshair_properties (w.size_slider.setValue v).value
            w.thickness_slider.value w.color w.transparency_slider.value),
        window := some { w with size_slider := (w.size_slider.setValue v) } } := by
  unfold AppState.moveSizeSlider AppState.update_settings
  rw [hw]

lemma moveThicknessSlider_eq {s : AppState} {w : SettingsWindow}
    (hw : s.window = some w) (v : Int) :
    s.moveThicknessSlider v =
      { s with
        overlay :=
          (s.overlay.set_crosshair_properties w.size_slider.value
            (w.thickness_slider.setValue v).value w.color
            w.transparency_slider.value),
        window := some { w with thickness_slider :=
          (w.thickness_slider.setValue v) } } := by
  unfold AppState.moveThicknessSlider AppState.update_settings
  rw [hw]

lemma moveTransparencySlider_eq {s : AppState} {w : SettingsWindow}
    (hw : s.window = some w) (v : Int) :
    s.moveTransparencySlider v =
      { s with
        overlay :=
          (s.overlay.set_crosshair_properties w.size_slider.value
            w.thickness_slider.value w.color
            (w.transparency_slider.setValue v).value),
        window := some { w with transparency_slider :=
          (w.transparency_slider.setValue v) } } := by
  unfold AppState.moveTransparencySlider AppState.update_settings
  rw [hw]

lemma open_color_dialog_true_eq {s : AppState} {w : SettingsWindow}
    (hw : s.window = some w) (c : QColor) :
    s.open_color_dialog c true =
      { s with
        overlay :=
          (s.overlay.set_crosshair_properties w.size_slider.value
            w.thickness_slider.value c w.transparency_slider.value),
        window := some { w with color := c } } := by
  unfold AppState.open_color_dialog AppState.update_settings
  rw [hw]
  rfl

lemma apply_settings_eq {s : AppState} {w : SettingsWindow}
    (hw : s.window = some w) :
    s.apply_settings =
      { s with
        overlay :=
          (s.overlay.set_crosshair_properties w.size_slider.value
            w.thickness_slider.value w.color w.transparency_slider.value),
        file := .content (serializeSettings w.size_slider.value
          w.thickness_slider.value w.color w.transparency_slider.value),
        window := some { w with hidden := true } } := by
  unfold AppState.apply_settings AppState.update_settings
  rw [hw]
  rfl

/-! ### Well-formedness preservation lemmas -/

lemma mkSettingsWindow_WF {o : Overlay} (hc : colorInRange o.color) :
    windowWF (mkSettingsWindow o) := by
  have h1 := Slider.setValue_bounds { minV := 1, maxV := 20, value := 1 }
    o.size (by norm_num)
  have h2 := Slider.setValue_bounds { minV := 1, maxV := 10, value := 1 }
    o.thickness (by norm_num)
  have h3 := Slider.setValue_bounds { minV := 0, maxV := 255, value := 0 }
    o.transparency (by norm_num)
  exact ⟨rfl, rfl, h1.1, h1.2, rfl, rfl, h2.1, h2.2, rfl, rfl, h3.1, h3.2, hc⟩

/-- Claim C4, counterexample: `load_settings` performs no range validation,
so a hand-crafted `settings.json` with `size` 999 makes the startup overlay
hold an out-of-range appearance — the invariant does not cover
`load_settings`. -/
theorem C4_counterexample :
    startupOverlay (.content (.obj [("size", .int 999),
      ("thickness", .int 2),
      ("color", .obj [("r", .int 0), ("g", .int 0), ("b", .int 0)]),
      ("transparency", .int 255)]))
      = .ok { size := 999, thickness := 2,
              color := { r := 0, g := 0, b := 0 }, transparency := 255,
              visible := true } ∧
    ¬ appearanceInRange
        { size := 999, thickness := 2, color := { r := 0, g := 0, b := 0 },
          transparency := 255, visible := true } :=
  ⟨rfl, by decide⟩

/-- Claim C4, amended: the defaults are in range, and every UI-driven
mutation of the appearance — a slider move, a confirmed color choice, a
slider-synchronised `update_settings` push and the Apply click — keeps all
four fields within their stated ranges, because the sliders bound their
values and the dialog is well-formed; but `load_settings` itself does not
validate, so only the appearances whose values it receives in range (the
defaults, or a file written by `save_settings` from in-range values) are in
range at startup, and a hand-crafted file can inject out-of-range values
(see the counterexample). -/
theorem C4_invariant_amended :
    (startupOverlay .missing = .ok defaultOverlay ∧
      appearanceInRange defaultOverlay) ∧
    (∀ o : Overlay, colorInRange o.color → windowWF (mkSettingsWindow o)) ∧
    (∀ (s : AppState) (w : SettingsWindow), s.window = some w → windowWF w →
      appearanceInRange s.update_settings.overlay) ∧
    (∀ (s : AppState) (w : SettingsWindow) (v : Int), s.window = some w →
      windowWF w → appearanceInRange (s.moveSizeSlider v).overlay) ∧
    (∀ (s : AppState) (w : SettingsWindow) (v : Int), s.window = some w →
      windowWF w → appearanceInRange (s.moveThicknessSlider v).overlay) ∧
    (∀ (s : AppState) (w : SettingsWindow) (v : Int), s.window = some w →
      windowWF w → appearanceInRange (s.moveTransparencySlider v).overlay) ∧
    (∀ (s : AppState) (w : SettingsWindow) (c : QColor), s.window = some w →
      windowWF w → colorInRange c →
      appearanceInRange ((s.open_color_dialog c true)).overlay) ∧
    (∀ (s : AppState) (w : SettingsWindow), s.window = some w → windowWF w →
      appearanceInRange s.apply_settings.overlay) := by
  refine ⟨⟨rfl, by decide⟩, ?_, ?_, ?_, ?_, ?_, ?_, ?_⟩
  · intro o hc
    exact mkSettingsWindow_WF hc
  · intro s w hw hWF
    obtain ⟨h1, h2, h3, h4, h5, h6, h7, h8, h9, h10, h11, h12, hc⟩ := hWF
    rw [update_settings_eq hw]
    exact ⟨h3, h4, h7, h8, hc, h11, h12⟩
  · intro s w v hw hWF
    obtain ⟨h1, h2, h3, h4, h5, h6, h7, h8, h9, h10, h11, h12, hc⟩ := hWF
    have hb := Slider.setValue_bounds w.size_slider v (by rw [h1, h2]; norm_num)
    rw [h1, h2] at hb
    rw [moveSizeSlider_eq hw v]
    exact ⟨hb.1, hb.2, h7, h8, hc, h11, h12⟩
  · intro s w v hw hWF
    obtain ⟨h1, h2, h3, h4, h5, h6, h7, h8, h9, h10, h11, h12, hc⟩ := hWF
    have hb := Slider.setValue_bounds w.thickness_slider v
      (by rw [h5, h6]; norm_num)
    rw [h5, h6] at hb
    rw [moveThicknessSlider_eq hw v]
    exact ⟨h3, h4, hb.1, hb.2, hc, h11, h12⟩
  · intro s w v hw hWF
    obtain ⟨h1, h2, h3, h4, h5, h6, h7, h8, h9, h10, h11, h12, hc⟩ := hWF
    have hb := Slider.setValue_bounds w.transparency_slider v
      (by rw [h9, h10]; norm_num)
    rw [h9, h10] at hb
    rw [moveTransparencySlider_eq hw v]
    exact ⟨h3, h4, h7, h8, hc, hb.1, hb.2⟩
  · intro s w c hw hWF hc'
    obtain ⟨h1, h2, h3, h4, h5, h6, h7, h8, h9, h10, h11, h12, hc⟩ := hWF
    rw [open_color_dialog_true_eq hw c]
    exact ⟨h3, h4, h7, h8, hc', h11, h12⟩
  · intro s w hw hWF
    obtain ⟨h1, h2, h3, h4, h5, h6, h7, h8, h9, h10, h11, h12, hc⟩ := hWF
    rw [apply_settings_eq hw]
    exact ⟨h3, h4, h7, h8, hc, h11, h12⟩

/-- Witness for the amended C4: the slider-push conclusion at the concrete
opened default state. -/
theorem C4_invariant_amended_witness :
    appearanceInRange demoState.update_settings.overlay :=
  C4_invariant_amended.2.2.1 demoState (mkSettingsWindow defaultOverlay)
    rfl (by decide)

/-- Claim C7: clicking Apply first pushes the current dialog values to the
overlay and then persists the overlay's now-current full appearance; in
particular, after a confirmed color change with the sliders untouched (they
still carry the values active on the overlay), the persisted record's size,
thickness and transparency equal those overlay values and its color is the
newly chosen one. -/
theorem C7_apply_after_color (s : AppState) (w : SettingsWindow) (c : QColor)
    (hw : s.window = some w)
    (hsz : w.size_slider.value = s.overlay.size)
    (hth : w.thickness_slider.value = s.overlay.thickness)
    (htr : w.transparency_slider.value = s.overlay.transparency) :
    ((s.open_color_dialog c true).apply_settings).file =
      .content (serializeSettings
        ((s.open_color_dialog c true).apply_settings).overlay.size
        ((s.open_color_dialog c true).apply_settings).overlay.thickness
        ((s.open_color_dialog c true).apply_settings).overlay.color
        ((s.open_color_dialog c true).apply_settings).overlay.transparency) ∧
    ((s.open_color_dialog c true).apply_settings).overlay.size =
      s.overlay.size ∧
    ((s.open_color_dialog c true).apply_settings).overlay.thickness =
      s.overlay.thickness ∧
    ((s.open_color_dialog c true).apply_settings).overlay.transparency =
      s.overlay.transparency ∧
    ((s.open_color_dialog c true).apply_settings).overlay.color = c := by
  rw [open_color_dialog_true_eq hw c]
  rw [apply_settings_eq (w := { w with color := c }) rfl]
  exact ⟨rfl, hsz, hth, htr, rfl⟩

/-- Witness for C7 at the concrete opened default state and the color
`RGB(1, 2, 3)`. -/
theorem C7_apply_after_color_witness :
    ((demoState.open_color_dialog { r := 1, g := 2, b := 3 }
        true).apply_settings).overlay.color = { r := 1, g := 2, b := 3 } :=
  (C7_apply_after_color demoState (mkSettingsWindow defaultOverlay)
    { r := 1, g := 2, b := 3 } rfl rfl rfl rfl).2.2.2.2

/-- Claim C8: every open of the settings dialog constructs it from the
overlay's current in-memory appearance — the three sliders and the held
color are seeded from the overlay's size, thickness, transparency and color
(exactly, whenever the appearance is in range) — and the construction is
independent of the persisted file, so repeated opens always reflect live
state, hidden or not. -/
theorem C8_open_seeds_from_overlay (s : AppState)
    (h : appearanceInRange s.overlay) :
    s.open_settings.window = some (mkSettingsWindow s.overlay) ∧
    (∀ w : SettingsWindow, s.open_settings.window = some w →
      w.size_slider.value = s.overlay.size ∧
      w.thickness_slider.value = s.overlay.thickness ∧
      w.transparency_slider.value = s.overlay.transparency ∧
      w.color = s.overlay.color ∧ w.hidden = false) ∧
    (∀ fs : FileState,
      ({ s with file := fs } : AppState).open_settings.window =
        s.open_settings.window) := by
  obtain ⟨h1, h2, h3, h4, hc, h5, h6⟩ := h
  refine ⟨rfl, ?_, fun fs => rfl⟩
  intro w hw
  have hw' : w = mkSettingsWindow s.overlay := by
    have := Option.some.inj hw
    exact this.symm
  subst hw'
  refine ⟨?_, ?_, ?_, rfl, rfl⟩
  · exact Slider.setValue_of_mem { minV := 1, maxV := 20, value := 1 }
      s.overlay.size h1 h2
  · exact Slider.setValue_of_mem { minV := 1, maxV := 10, value := 1 }
      s.overlay.thickness h3 h4
  · exact Slider.setValue_of_mem { minV := 0, maxV := 255, value := 0 }
      s.overlay.transparency h5 h6

/-- Witness for C8 at the default startup state. -/
theorem C8_open_seeds_from_overlay_witness :
    (initAppState defaultOverlay .missing).open_settings.window =
      some (mkSettingsWindow (initAppState defaultOverlay .missing).overlay) :=
  (C8_open_seeds_from_overlay (initAppState defaultOverlay .missing)
    (by decide)).1

/-- Claim C9, counterexample: on the concrete run open-Apply-open,
`open_settings` executes `self.settings_window = SettingsWindow(self.overlay)`
and so constructs a second `SettingsWindow` object (the construction
counter rises from 1 to 2) instead of re-showing the first instance. -/
theorem C9_counterexample :
    demoState.apply_settings.open_settings.dialogCount =
      demoState.dialogCount + 1 ∧
    demoState.apply_settings.dialogCount = demoState.dialogCount ∧
    demoState.dialogCount = 1 :=
  ⟨rfl, rfl, rfl⟩

/-- Claim C9, amended: Apply hides the dialog without destroying it — the
same dialog object persists with all its fields intact and only `hidden`
set — but a subsequent open of Settings constructs a new dialog object
seeded from the overlay's current appearance rather than re-showing the old
instance; since the old sliders were already synced to the overlay, the new
dialog carries the same slider positions and color whenever the old dialog
was well-formed. -/
theorem C9_apply_hides_reopen_constructs (s : AppState) (w : SettingsWindow)
    (hw : s.window = some w) :
    s.apply_settings.window = some { w with hidden := true } ∧
    s.apply_settings.open_settings.dialogCount = s.dialogCount + 1 ∧
    s.apply_settings.open_settings.window =
      some (mkSettingsWindow s.apply_settings.overlay) ∧
    (windowWF w →
      ∀ w2 : SettingsWindow, s.apply_settings.open_settings.window = some w2 →
        w2.size_slider.value = w.size_slider.value ∧
        w2.thickness_slider.value = w.thickness_slider.value ∧
        w2.transparency_slider.value = w.transparency_slider.value ∧
        w2.color = w.color) := by
  rw [apply_settings_eq hw]
  refine ⟨rfl, rfl, rfl, ?_⟩
  intro hWF w2 hw2
  obtain ⟨h1, h2, h3, h4, h5, h6, h7, h8, h9, h10, h11, h12, hc⟩ := hWF
  have hw2' : w2 = mkSettingsWindow
      (s.overlay.set_crosshair_properties w.size_slider.value
        w.thickness_slider.value w.color w.transparency_slider.value) := by
    have := Option.some.inj hw2
    exact this.symm
  subst hw2'
  refine ⟨?_, ?_, ?_, rfl⟩
  · exact Slider.setValue_of_mem { minV := 1, maxV := 20, value := 1 }
      w.size_slider.value h3 h4
  · exact Slider.setValue_of_mem { minV := 1, maxV := 10, value := 1 }
      w.thickness_slider.value h7 h8
  · exact Slider.setValue_of_mem { minV := 0, maxV := 255, value := 0 }
      w.transparency_slider.value h11 h12

/-- Witness for the amended C9 at the concrete opened default state. -/
theorem C9_apply_hides_reopen_constructs_witness :
    demoState.apply_settings.window =
      some { mkSettingsWindow defaultOverlay with hidden := true } :=
  (C9_apply_hides_reopen_constructs demoState
    (mkSettingsWindow defaultOverlay) rfl).1

/-- Claim C10: a toggle (also when it arrives as a left click on the tray
icon) never touches the four appearance fields, and from every reachable
tray-controller state two consecutive toggles restore the visibility flag,
the overlay's shown state and the menu label to their original values. -/
theorem C10_toggle_involution :
    (∀ s : AppState,
      s.toggle_overlay.overlay.appearance = s.overlay.appearance) ∧
    (∀ s : AppState, s.on_tray_icon_activated .trigger = s.toggle_overlay) ∧
    (∀ s : AppState, Reachable s →
      s.toggle_overlay.toggle_overlay.tray.is_overlay_visible =
        s.tray.is_overlay_visible ∧
      s.toggle_overlay.toggle_overlay.overlay.visible = s.overlay.visible ∧
      s.toggle_overlay.toggle_overlay.tray.toggle_text =
        s.tray.toggle_text) := by
  refine ⟨?_, fun s => rfl, ?_⟩
  · intro s
    unfold AppState.toggle_overlay
    cases hv : s.tray.is_overlay_visible <;>
      simp [hv, Overlay.appearance]
  · intro s hs
    obtain ⟨h1, h2⟩ := reachable_traySync hs
    unfold AppState.toggle_overlay
    cases hv : s.tray.is_overlay_visible <;>
      rw [hv] at h1 h2 <;>
      simp [hv] <;>
      exact ⟨h1.symm, h2.symm⟩

/-- Witness for C10 at the reachable default startup state. -/
theorem C10_toggle_involution_witness :
    (initAppState defaultOverlay
        .missing).toggle_overlay.toggle_overlay.tray.is_overlay_visible =
      (initAppState defaultOverlay .missing).tray.is_overlay_visible :=
  (C10_toggle_involution.2.2 (initAppState defaultOverlay .missing)
    (Reachable.boot .missing defaultOverlay rfl)).1

end Pycross
